import Mathlib

/-!
# Verification of the python-nvp codec (nvp/util.py and nvp/__init__.py)

Shallow embedding of the NVP key/value codec. Python values are modelled by
the tagged union `PyVal` (strings, ints, lists, dicts), Python exceptions by
`PyErr`, and fallible functions return `Except PyErr`. Python string
operations used by the source (split, join, rindex, slicing, int(), negative
indexing) are modelled structurally over `List Char` so that all definitions
evaluate by kernel reduction. Recursive transforms carry a fuel parameter
standing for the Python recursion limit; exhaustion maps to
`PyErr.recursionLimit` (the analogue of RuntimeError: maximum recursion depth
exceeded), and all concrete evaluations use ample fuel.
-/

/-- Python exception kinds raised by the code paths modelled here. -/
inductive PyErr where
  | valueError (msg : String)
  | indexError
  | keyError
  | typeError (msg : String)
  | attributeError
  | recursionLimit
deriving DecidableEq, Repr

/-- The three key-naming conventions: CONVENTION_PREFIX, CONVENTION_BRACKET,
CONVENTION_PARENTHESES in nvp/util.py. -/
inductive Convention where
  | prefixConv
  | bracket
  | parentheses
deriving DecidableEq, Repr

/-- A key component: Python code mixes strings and ints in key lists and as
dict keys, so both are modelled. -/
inductive PyKey where
  | s (v : String)
  | i (v : Int)
deriving DecidableEq, Repr

/-- Python values flowing through the codec: scalars (str, int), lists and
dicts. Dicts are insertion-ordered association lists (keys unique in all the
inputs considered); tuples, sets and frozensets behave as lists for every
operation the source performs on them. -/
inductive PyVal where
  | str (v : String)
  | int (v : Int)
  | list (items : List PyVal)
  | dict (entries : List (PyKey × PyVal))

/-! ## Python string primitives over `List Char` -/

/-- Test whether the pattern `p` begins the list `l`; models str.startswith. -/
def beginsWith : List Char → List Char → Bool
  | _, [] => true
  | [], _ :: _ => false
  | a :: as, b :: bs => a == b && beginsWith as bs

/-- Split on a single-character separator; models Python str.split(sep) for a
one-character sep: the empty string yields one empty field, and separators at
the ends yield empty fields. -/
def splitOnChar (sep : Char) : List Char → List (List Char)
  | [] => [[]]
  | a :: rest =>
    let r := splitOnChar sep rest
    if a = sep then [] :: r
    else
      match r with
      | x :: xs => (a :: x) :: xs
      | [] => [[a]]

/-- Join a list of strings with a single-character separator; models
sep.join(parts). -/
def joinWithChar (sep : Char) : List (List Char) → List Char
  | [] => []
  | [x] => x
  | x :: y :: rest => x ++ sep :: joinWithChar sep (y :: rest)

/-- Index of the last occurrence of `c`; models str.rindex returning none in
place of raising ValueError. -/
def rindexChar (c : Char) (l : List Char) : Option Nat :=
  match l.reverse.findIdx? (fun a => a = c) with
  | some i => some (l.length - 1 - i)
  | none => none

/-- Numeric value of a list of decimal digit characters. -/
def digitsToNat (l : List Char) : Nat :=
  l.foldl (fun acc c => acc * 10 + (c.toNat - Char.toNat ('0'))) 0

/-- Decimal rendering of a natural number, fueled so it reduces in the
kernel; fuel n + 1 always suffices. -/
def natDigits (fuel n : Nat) : List Char :=
  match fuel with
  | 0 => []
  | fuel + 1 =>
    if n < 10 then [Nat.digitChar n]
    else natDigits fuel (n / 10) ++ [Nat.digitChar (n % 10)]

/-- Decimal rendering of an integer; models the %d format directive. -/
def intToChars (i : Int) : List Char :=
  if i < 0 then Char.ofNat 45 :: natDigits (i.natAbs + 1) i.natAbs
  else natDigits (i.natAbs + 1) i.natAbs

/-- String form of an integer. -/
def intToStr (i : Int) : String := String.mk (intToChars i)

/-- Python int(string): strip surrounding whitespace, accept an optional sign
followed by one or more ASCII decimal digits; anything else is ValueError. -/
def pyIntChars (l : List Char) : Except PyErr Int :=
  let t := ((l.dropWhile Char.isWhitespace).reverse.dropWhile Char.isWhitespace).reverse
  match t with
  | [] => .error (.valueError ("invalid literal for int"))
  | c :: ds =>
    if c = ('-') then
      if ds ≠ [] ∧ ds.all Char.isDigit then .ok (-(digitsToNat ds : Int))
      else .error (.valueError ("invalid literal for int"))
    else if c = ('+') then
      if ds ≠ [] ∧ ds.all Char.isDigit then .ok (digitsToNat ds : Int)
      else .error (.valueError ("invalid literal for int"))
    else
      if (c :: ds).all Char.isDigit then .ok (digitsToNat (c :: ds) : Int)
      else .error (.valueError ("invalid literal for int"))

/-- Python int(s) on a string. -/
def pyInt (s : String) : Except PyErr Int := pyIntChars s.data

/-- Python s[-1]: the last character, IndexError on the empty string. -/
def pyLastChar (s : String) : Except PyErr Char :=
  match s.data.getLast? with
  | some c => .ok c
  | none => .error .indexError

/-- Python s[a:b] slicing with non-negative bounds (empty when b is at or
before a, clipped at the end of the string). -/
def sliceChars (l : List Char) (a b : Nat) : List Char :=
  (l.drop a).take (b - a)

/-- Lexicographic comparison of char lists by code point; models Python 2
byte-wise str ordering for the ASCII keys considered here. -/
def lexLt : List Char → List Char → Bool
  | [], [] => false
  | [], _ :: _ => true
  | _ :: _, [] => false
  | a :: as, b :: bs =>
    if a.toNat < b.toNat then true
    else if b.toNat < a.toNat then false
    else lexLt as bs

/-! ## Module constants (nvp/util.py lines 14-39) -/

/-- KEY_HIERARCHY_SEPARATOR, the one-character string between bracket and
parentheses key-path components. -/
def KEY_HIERARCHY_SEPARATOR : Char := Char.ofNat 46

/-- KEY_PREFIX_HIERARCHY_SEPARATOR, the underscore separator of the prefix
convention. -/
def KEY_PREFIX_HIERARCHY_SEPARATOR : Char := Char.ofNat 95

/-- PREFIX_KEY_VALUE, the marker prepended to prefix-convention keys whose
value is sequential. -/
def PREFIX_KEY_VALUE : String := "L_"

/-- The length of PREFIX_KEY_VALUE. -/
def PREFIX_KEY_VALUE_LEN : Nat := PREFIX_KEY_VALUE.data.length

/-! ## Duck-typing helpers (nvp/util.py lines 46-90) -/

/-- is_string: only str has both getitem and join. -/
def isString : PyVal → Bool
  | .str _ => true
  | _ => false

/-- is_int on a key component: only int has pow and denominator. -/
def isIntKey : PyKey → Bool
  | .i _ => true
  | .s _ => false

/-- is_dict: only dict has both getitem and setdefault. -/
def isDict : PyVal → Bool
  | .dict _ => true
  | _ => false

/-- is_non_string_sequence: has iter and is not a dict; in Python 2 neither
str nor int defines iter, so exactly lists (and the tuples, sets and
frozensets they stand for) qualify. -/
def isNonStringSequence : PyVal → Bool
  | .list _ => true
  | _ => false

/-- Truthiness of a key component: the empty string and the integer zero are
falsy in Python. -/
def pyKeyFalsy : PyKey → Bool
  | .s v => v.data.isEmpty
  | .i v => v = 0

/-- The %s rendering of a key component. -/
def pyKeyStr : PyKey → String
  | .s v => v
  | .i v => intToStr v

/-! ## Container item access (Python getitem / setitem / in / insert) -/

/-- Python list indexing with negative-index support: l[i] is l[len+i] for
negative i, IndexError when out of range either way. -/
def pyListGet (xs : List PyVal) (i : Int) : Except PyErr PyVal :=
  let j : Int := if i < 0 then (xs.length : Int) + i else i
  if h : 0 ≤ j ∧ j < (xs.length : Int) then
    .ok (xs.get ⟨j.toNat, by omega⟩)
  else .error .indexError

/-- Python list item assignment l[i] = v: same index rules as reading. -/
def pyListSet (xs : List PyVal) (i : Int) (v : PyVal) : Except PyErr (List PyVal) :=
  let j : Int := if i < 0 then (xs.length : Int) + i else i
  if 0 ≤ j ∧ j < (xs.length : Int) then .ok (xs.set j.toNat v)
  else .error .indexError

/-- Python list.insert(i, v): the position is clamped into [0, len]. -/
def pyListInsert (xs : List PyVal) (i : Int) (v : PyVal) : List PyVal :=
  let j : Int := if i < 0 then max 0 ((xs.length : Int) + i) else min i (xs.length : Int)
  xs.insertIdx j.toNat v

/-- Substring test over char lists, used for Python `sub in somestring`. -/
def isSubChars (p l : List Char) : Bool :=
  (List.range (l.length + 1)).any (fun i => beginsWith (l.drop i) p)

/-- Equality test used by `x in somelist`: a key component equals a list
element only when both are ints or both are strings with equal payloads
(Python 2 cross-type comparisons are unequal, not errors). -/
def pyEqKV (k : PyKey) (v : PyVal) : Bool :=
  match k, v with
  | .i a, .int b => a == b
  | .s a, .str b => a == b
  | _, _ => false

/-- Python membership `k in container`: key lookup for dicts, element search
for lists, substring test for strings (TypeError when the left operand is an
int), TypeError for ints. -/
def pyContains (container : PyVal) (k : PyKey) : Except PyErr Bool :=
  match container with
  | .dict es => .ok (es.any (fun kv => kv.1 == k))
  | .list xs => .ok (xs.any (fun v => pyEqKV k v))
  | .str s =>
    match k with
    | .s t => .ok (isSubChars t.data s.data)
    | .i _ => .error (.typeError ("in string requires string as left operand"))
  | .int _ => .error (.typeError ("argument of type int is not iterable"))

/-- Python subscript read container[k]: dict lookup (first binding; KeyError
when absent), list indexing for int keys, TypeError otherwise. -/
def pyGetItem (container : PyVal) (k : PyKey) : Except PyErr PyVal :=
  match container with
  | .dict es =>
    match es.find? (fun kv => kv.1 == k) with
    | some kv => .ok kv.2
    | none => .error .keyError
  | .list xs =>
    match k with
    | .i i => pyListGet xs i
    | .s _ => .error (.typeError ("list indices must be integers"))
  | .str s =>
    match k with
    | .i i =>
      let j : Int := if i < 0 then (s.data.length : Int) + i else i
      if 0 ≤ j ∧ j < (s.data.length : Int) then
        .ok (.str (String.mk ((s.data.drop j.toNat).take 1)))
      else .error .indexError
    | .s _ => .error (.typeError ("string indices must be integers"))
  | .int _ => .error (.typeError ("int object is not subscriptable"))

/-- Python subscript write container[k] = v: dicts update the first binding
in place or append a new one, lists assign in range, everything else is a
TypeError (strings do not support item assignment). -/
def pySetItem (container : PyVal) (k : PyKey) (v : PyVal) : Except PyErr PyVal :=
  match container with
  | .dict es =>
    if es.any (fun kv => kv.1 == k) then
      .ok (.dict (es.map (fun kv => if kv.1 == k then (kv.1, v) else kv)))
    else .ok (.dict (es ++ [(k, v)]))
  | .list xs =>
    match k with
    | .i i => (pyListSet xs i v).map PyVal.list
    | .s _ => .error (.typeError ("list indices must be integers"))
  | .str _ => .error (.typeError ("str object does not support item assignment"))
  | .int _ => .error (.typeError ("int object does not support item assignment"))

/-- sequence_has_index (util.py lines 79-90): try the subscript, catching
only IndexError; other exceptions propagate. -/
def sequenceHasIndex (sequence : PyVal) (index : PyKey) : Except PyErr Bool :=
  match pyGetItem sequence index with
  | .ok _ => .ok true
  | .error .indexError => .ok false
  | .error e => .error e

/-! ## Key path functions (nvp/util.py lines 138-450) -/

/-- detect_key_convention (util.py lines 242-272): prefix when the key starts
with the marker L_ (str.startswith is case sensitive), else inspect the last
character (key[-1] raises IndexError on an empty key): a closing bracket
means bracket, a closing parenthesis means parentheses, anything else means
no convention (the source returns False; modelled as none). -/
def detectKeyConvention (key : String) : Except PyErr (Option Convention) :=
  if beginsWith key.data PREFIX_KEY_VALUE.data then .ok (some Convention.prefixConv)
  else
    match pyLastChar key with
    | .error e => .error e
    | .ok c =>
      if c = (']') then .ok (some Convention.bracket)
      else if c = (')') then .ok (some Convention.parentheses)
      else .ok none

/-- Number of trailing ASCII-digit characters of a key. -/
def trailingDigitCount (l : List Char) : Nat :=
  (l.reverse.takeWhile Char.isDigit).length

/-- parse_prefix_key_with_index (util.py lines 275-297). The source walks
index_at leftwards from the end while int(key[index_at - 1]) succeeds, i.e.
over the trailing run of digit characters. When the walk crosses the whole
key (every character is a digit, or the key is empty) the subscript
key[-len - 1] raises an uncaught IndexError; when there is no trailing digit
it raises ValueError; otherwise it returns the key without its digit suffix
together with the suffix value. -/
def parsePrefixKeyWithIndex (key : String) : Except PyErr (String × Int) :=
  let n := trailingDigitCount key.data
  if n = key.data.length then .error .indexError
  else if n = 0 then
    .error (.valueError ("Given key has no index appended to it: " ++ key))
  else
    .ok (String.mk (key.data.take (key.data.length - n)),
         (digitsToNat (key.data.drop (key.data.length - n)) : Int))

/-- _parse_group_key_with_index (util.py lines 428-450): locate the rightmost
opening and closing identifiers via str.rindex (ValueError when either is
missing), then int() the text between them (ValueError when non-numeric) and
return the key up to the opening identifier with that index. -/
def parseGroupKeyWithIndex (key : String) (openId closeId : Char) :
    Except PyErr (String × Int) :=
  match rindexChar openId key.data, rindexChar closeId key.data with
  | some oi, some ci =>
    match pyIntChars (sliceChars key.data (oi + 1) ci) with
    | .ok index => .ok (String.mk (key.data.take oi), index)
    | .error _ =>
      .error (.valueError ("Cannot retrieve numerical index in key: " ++ key))
  | _, _ =>
    .error (.valueError ("Missing opening or closing sequence identifier for key: " ++ key))

/-- parse_bracket_key_with_index (util.py lines 300-310). -/
def parseBracketKeyWithIndex (key : String) : Except PyErr (String × Int) :=
  parseGroupKeyWithIndex key ('[') (']')

/-- parse_parentheses_key_with_index (util.py lines 313-323). -/
def parseParenthesesKeyWithIndex (key : String) : Except PyErr (String × Int) :=
  parseGroupKeyWithIndex key ('(') (')')

/-- parse_key_with_index (util.py lines 335-368): dispatch through
_KEY_PARSERS; every Convention value is a key of that table, so the
unknown-convention ValueError branch is unreachable here. -/
def parseKeyWithIndex (convention : Convention) (key : String) :
    Except PyErr (String × Int) :=
  match convention with
  | .prefixConv => parsePrefixKeyWithIndex key
  | .bracket => parseBracketKeyWithIndex key
  | .parentheses => parseParenthesesKeyWithIndex key

/-- generate_key_component (util.py lines 397-421): render one sequence key
component in the given convention; with the convention enum the trailing
unknown-convention ValueError branch is unreachable. -/
def generateKeyComponent (key : String) (index : Int) (convention : Convention) :
    String :=
  match convention with
  | .bracket => key ++ ("[") ++ intToStr index ++ ("]")
  | .parentheses => key ++ ("(") ++ intToStr index ++ (")")
  | .prefixConv => key ++ String.mk [KEY_PREFIX_HIERARCHY_SEPARATOR] ++ intToStr index

/-- The for-loop of convert_prefix_into_bracket_key (util.py lines 158-167):
for each underscore component, if int() succeeds the bracket rendering of the
previous converted entry with that index is appended (converted[-1] raises
IndexError when there is no previous entry); otherwise the component itself
is appended. Appending (not replacing) is what the source does. -/
def convertPrefixLoop : List String → List String → Except PyErr (List String)
  | [], converted => .ok converted
  | component :: rest, converted =>
    match pyInt component with
    | .ok index =>
      match converted.getLast? with
      | some prev =>
        convertPrefixLoop rest
          (converted ++ [generateKeyComponent prev index Convention.bracket])
      | none => .error .indexError
    | .error _ => convertPrefixLoop rest (converted ++ [component])

/-- convert_prefix_into_bracket_key (util.py lines 138-179): keys without an
underscore are returned unchanged; otherwise the L_ marker is stripped, the
underscore components are folded by `convertPrefixLoop`, a trailing appended
index on the final converted entry is rewritten to bracket form (ValueError
from that parse is swallowed, IndexError is not), and the converted entries
are joined with the hierarchy separator. -/
def convertPrefixIntoBracketKey (key : String) : Except PyErr String :=
  if ¬ key.data.any (fun c => c = KEY_PREFIX_HIERARCHY_SEPARATOR) then .ok key
  else
    let stripped :=
      if beginsWith key.data PREFIX_KEY_VALUE.data then
        String.mk (key.data.drop PREFIX_KEY_VALUE_LEN)
      else key
    let components :=
      (splitOnChar KEY_PREFIX_HIERARCHY_SEPARATOR stripped.data).map String.mk
    match convertPrefixLoop components [] with
    | .error e => .error e
    | .ok converted =>
      match converted.getLast? with
      | none => .error .indexError
      | some last =>
        match parsePrefixKeyWithIndex last with
        | .ok (k, index) =>
          .ok (String.mk (joinWithChar KEY_HIERARCHY_SEPARATOR
            ((converted.dropLast ++
              [generateKeyComponent k index Convention.bracket]).map String.data)))
        | .error (.valueError _) =>
          .ok (String.mk (joinWithChar KEY_HIERARCHY_SEPARATOR
            (converted.map String.data)))
        | .error e => .error e

/-- Python sep.join over key components: TypeError as soon as a component is
an int (string join only accepts strings). -/
def joinKeysWith (sep : Char) (components : List PyKey) : Except PyErr String :=
  if components.any (fun k => isIntKey k) then
    .error (.typeError ("sequence item: expected string, int found"))
  else
    .ok (String.mk (joinWithChar sep (components.map (fun k => (pyKeyStr k).data))))

/-- generate_key (util.py lines 371-394): bracket and parentheses keys join
the components with the hierarchy separator. The prefix branch reads
components[-1] (an uncaught IndexError on an empty list, and an uncaught
AttributeError when it is an int, since only the unpacking ValueError is
caught), splits it on one underscore into exactly two parts (any other arity
is the caught ValueError, leaving the key non-sequential), rewrites the last
component to key plus index, joins with underscores and prepends the L_
marker when the sequential rewrite happened. -/
def generateKey (components : List PyKey) (convention : Convention) :
    Except PyErr String :=
  match convention with
  | .bracket => joinKeysWith KEY_HIERARCHY_SEPARATOR components
  | .parentheses => joinKeysWith KEY_HIERARCHY_SEPARATOR components
  | .prefixConv =>
    match components.getLast? with
    | none => .error .indexError
    | some last =>
      match last with
      | .i _ => .error .attributeError
      | .s lastStr =>
        match (splitOnChar KEY_PREFIX_HIERARCHY_SEPARATOR lastStr.data).map String.mk with
        | [k, index] =>
          match joinKeysWith KEY_PREFIX_HIERARCHY_SEPARATOR
              (components.dropLast ++ [PyKey.s (k ++ index)]) with
          | .ok keyPath => .ok (PREFIX_KEY_VALUE ++ keyPath)
          | .error e => .error e
        | _ => joinKeysWith KEY_PREFIX_HIERARCHY_SEPARATOR components

/-- The key argument of parse_hierarchical_key_path and of the recursive
unflatten step: either the raw key string from the flat source dictionary or
the already-split list of key components. -/
inductive KeysArg where
  | raw (s : String)
  | path (l : List PyKey)

/-- Python truthiness of the keys argument: the empty string and the empty
list are falsy. -/
def keysFalsy : KeysArg → Bool
  | .raw s => s.data.isEmpty
  | .path l => l.isEmpty

/-- parse_hierarchical_key_path (util.py lines 182-239). A raw string key is
first normalized from the prefix convention (errors there propagate,
regardless of strict_key_parsing) and split on the hierarchy separator. The
first component is popped (IndexError on an empty component list); a
non-string first component is returned as is. Otherwise the convention of
the first component is detected (key[-1] inside the detector can raise an
uncaught IndexError); without a convention the component is returned as is;
with one, parse_key_with_index is attempted and on success the index is
pushed onto the remaining components. Only ValueError from that attempt is
caught: it is re-raised under strict key parsing (after printing a
traceback, a side effect not modelled) and swallowed otherwise, returning
the unparsed first component unchanged. -/
def parseHierarchicalKeyPath (keys : KeysArg) (strictKeyParsing : Bool) :
    Except PyErr (PyKey × List PyKey) :=
  let comps : Except PyErr (List PyKey) :=
    match keys with
    | .raw s =>
      match convertPrefixIntoBracketKey s with
      | .ok b =>
        .ok ((splitOnChar KEY_HIERARCHY_SEPARATOR b.data).map
          (fun cs => PyKey.s (String.mk cs)))
      | .error e => .error e
    | .path l => .ok l
  match comps with
  | .error e => .error e
  | .ok [] => .error .indexError
  | .ok (PyKey.i n :: rest) => .ok (PyKey.i n, rest)
  | .ok (PyKey.s initialKey :: rest) =>
    match detectKeyConvention initialKey with
    | .error e => .error e
    | .ok none => .ok (PyKey.s initialKey, rest)
    | .ok (some convention) =>
      match parseKeyWithIndex convention initialKey with
      | .ok (k, index) => .ok (PyKey.s k, PyKey.i index :: rest)
      | .error (.valueError m) =>
        if strictKeyParsing then .error (.valueError m)
        else .ok (PyKey.s initialKey, rest)
      | .error e => .error e

/-! ## Flatten engine (nvp/util.py lines 453-524) -/

/-- Scalar case of _convert_into_list: render the accumulated key components
and append the pair. At the top-level call keys is None, so generate_key
would join None, a TypeError; that point is unreachable through
get_hierarchical_pairs, which only accepts dicts. -/
def convertScalar (source : PyVal) (convention : Convention)
    (destination : List (String × PyVal)) (keys : Option (List PyKey)) :
    Except PyErr (List (String × PyVal)) :=
  match keys with
  | none => .error (.typeError ("can only join an iterable"))
  | some ks =>
    match generateKey ks convention with
    | .ok pathK => .ok (destination ++ [(pathK, source)])
    | .error e => .error e

/-- _convert_into_list (util.py lines 453-524): depth-first conversion of a
hierarchical value into flat pairs. Scalars emit one pair from the
accumulated key components. Dicts recurse entrywise, appending the entry key
to a copy of the component list. Lists pop the last component as the parent
key (IndexError when there is none, ValueError when it is falsy) and recurse
elementwise on the parent key with the running index rendered through
generate_key_component. The source tracks no nesting depth; the fuel
parameter only models the Python recursion limit. -/
def convertIntoList (fuel : Nat) (source : PyVal) (convention : Convention)
    (destination : List (String × PyVal)) (keys : Option (List PyKey)) :
    Except PyErr (List (String × PyVal)) :=
  match source with
  | .str v => convertScalar (.str v) convention destination keys
  | .int v => convertScalar (.int v) convention destination keys
  | .dict entries =>
    match fuel with
    | 0 => .error .recursionLimit
    | fuel + 1 =>
      let ks := keys.getD []
      entries.foldlM
        (fun dest kv => convertIntoList fuel kv.2 convention dest (some (ks ++ [kv.1])))
        destination
  | .list items =>
    match fuel with
    | 0 => .error .recursionLimit
    | fuel + 1 =>
      let ks := keys.getD []
      match ks.getLast? with
      | none => .error .indexError
      | some pk =>
        if pyKeyFalsy pk then
          .error (.valueError ("Cannot generate sequence key without parent key"))
        else
          (items.foldlM
            (fun (st : List (String × PyVal) × Int) v => do
              let k := generateKeyComponent (pyKeyStr pk) st.2 convention
              let dest ← convertIntoList fuel v convention st.1
                (some (ks.dropLast ++ [PyKey.s k]))
              pure (dest, st.2 + 1))
            (destination, 0)).map (fun (st : List (String × PyVal) × Int) => st.1)
termination_by structural fuel

/-- get_hierarchical_pairs (util.py lines 97-112): reject non-dict sources
with ValueError, then run the flatten engine with empty destination and no
keys. -/
def getHierarchicalPairs (fuel : Nat) (source : PyVal) (convention : Convention) :
    Except PyErr (List (String × PyVal)) :=
  if ¬ isDict source then
    .error (.valueError ("Cannot generate NVP pairs for non-dict object"))
  else convertIntoList fuel source convention [] none

/-! ## Unflatten engine (nvp/util.py lines 115-131 and 527-593) -/

/-- The single-item collapse at the leaf of _convert_into_hierarchical_dict:
a non-string sequence of length one is replaced by its sole element. -/
def collapseSingleValue : PyVal → PyVal
  | .list [x] => x
  | v => v

/-- _convert_into_hierarchical_dict (util.py lines 527-593). With falsy keys
(empty component list or empty raw string) the collapsed value is returned.
Otherwise the key path is parsed; the next destination slot is created as a
list when the next remaining component is an int and as a dict otherwise,
but only when the current key is not already present (membership via
sequence_has_index for list destinations, Python `in` otherwise, both of
which can raise for mistyped destinations); then the recursion result for
destination[k] is written back at k. -/
def convertIntoHierarchicalDict (fuel : Nat) (destination : PyVal) (keys : KeysArg)
    (value : PyVal) (strictKeyParsing : Bool) : Except PyErr PyVal :=
  if keysFalsy keys then .ok (collapseSingleValue value)
  else
    match fuel with
    | 0 => .error .recursionLimit
    | fuel + 1 => do
      let parsed ← parseHierarchicalKeyPath keys strictKeyParsing
      let k := parsed.1
      let remainingKs := parsed.2
      let isCurrentSequential := isNonStringSequence destination
      let isNextSequential :=
        match remainingKs with
        | [] => false
        | c :: _ => isIntKey c
      let target : PyVal := if isNextSequential then .list [] else .dict []
      let dest1 ←
        if isCurrentSequential then do
          let has ← sequenceHasIndex destination k
          if has then pure destination
          else
            match destination, k with
            | .list xs, .i i => pure (PyVal.list (pyListInsert xs i target))
            | _, _ => .error (.typeError ("insert index must be an int"))
        else do
          let mem ← pyContains destination k
          if mem then pure destination
          else pySetItem destination k target
      let current ← pyGetItem dest1 k
      let sub ← convertIntoHierarchicalDict fuel current (.path remainingKs) value
        strictKeyParsing
      pySetItem dest1 k sub
termination_by structural fuel

/-- Insertion step of the key sort in get_hierarchical_dict. -/
def insertPairSorted (p : String × PyVal) :
    List (String × PyVal) → List (String × PyVal)
  | [] => [p]
  | q :: qs =>
    if lexLt p.1.data q.1.data then p :: q :: qs else q :: insertPairSorted p qs

/-- sorted(source.keys()) of get_hierarchical_dict, realised as an insertion
sort of the pairs by key (keys are unique, so pairing keys with their values
is equivalent to sorting the keys and looking each one up). -/
def sortPairsByKey (source : List (String × PyVal)) : List (String × PyVal) :=
  source.foldr insertPairSorted []

/-- get_hierarchical_dict (util.py lines 115-131): fold the pairs in sorted
key order through the unflatten step, starting from an empty dict. -/
def getHierarchicalDict (fuel : Nat) (source : List (String × PyVal))
    (strictKeyParsing : Bool) : Except PyErr PyVal :=
  (sortPairsByKey source).foldlM
    (fun ret kv => convertIntoHierarchicalDict fuel ret (.raw kv.1) kv.2 strictKeyParsing)
    (PyVal.dict [])

/-! ## Facade (nvp/__init__.py lines 91-104) -/

/-- The parameter names of util.get_hierarchical_pairs: def
get_hierarchical_pairs(source, convention=DEFAULT_CONVENTION). -/
def getHierarchicalPairsParams : List String := ["source", "convention"]

/-- The keyword arguments dumps passes in its call
util.get_hierarchical_pairs(obj, convention=convention, key_filter=key_filter). -/
def dumpsCallKeywords : List String := ["convention", "key_filter"]

/-- dumps (nvp/__init__.py lines 91-104), modelling the Python call protocol:
before the callee body runs, every keyword argument must match a parameter
of util.get_hierarchical_pairs, otherwise the call raises TypeError. When
the binding succeeds the pairs are produced (the final urlencode belongs to
the out-of-scope transport layer and is not modelled). -/
def dumps (fuel : Nat) (obj : PyVal) (convention : Convention) :
    Except PyErr (List (String × PyVal)) :=
  match dumpsCallKeywords.find? (fun kw => ¬ getHierarchicalPairsParams.contains kw) with
  | some kw =>
    .error (.typeError ("get_hierarchical_pairs() got an unexpected keyword argument "
      ++ kw))
  | none => getHierarchicalPairs fuel obj convention

/-! ## Helper lemmas -/

/-- A string distinct from the empty string has a nonempty character list. -/
theorem data_ne_nil_of_ne_empty {s : String} (h : s ≠ ("")) : s.data ≠ [] := by
  intro hd
  apply h
  cases s with
  | mk data =>
    simp only [String.data] at hd
    subst hd
    rfl

/-- The convention detector evaluated on any key with at least one
character: case-sensitive marker test first, then the last character. -/
theorem detect_total (key : String) (h : key.data ≠ []) :
    detectKeyConvention key =
      .ok (if beginsWith key.data PREFIX_KEY_VALUE.data then some Convention.prefixConv
           else if key.data.getLast? = some (']') then some Convention.bracket
           else if key.data.getLast? = some (')') then some Convention.parentheses
           else none) := by
  unfold detectKeyConvention pyLastChar
  by_cases hb : beginsWith key.data PREFIX_KEY_VALUE.data
  · simp [hb]
  · cases hc : key.data.getLast? with
    | none => exact absurd (List.getLast?_eq_none_iff.mp hc) h
    | some c =>
      simp only [hb, if_false, hc, Option.some.injEq]
      by_cases h1 : c = (']') <;> by_cases h2 : c = (')') <;>
        simp [h1, h2]

/-- When every character survives takeWhile, the predicate holds on all of
the list. -/
theorem all_of_takeWhile_length {p : Char → Bool} :
    ∀ {l : List Char}, (l.takeWhile p).length = l.length → ∀ c ∈ l, p c = true := by
  intro l
  induction l with
  | nil => intro _ c hc; cases hc
  | cons a as ih =>
    intro h c hc
    by_cases hp : p a
    · rw [List.takeWhile_cons_of_pos hp] at h
      simp only [List.length_cons, Nat.add_right_cancel_iff] at h
      rcases List.mem_cons.mp hc with rfl | hc2
      · exact hp
      · exact ih h c hc2
    · rw [List.takeWhile_cons_of_neg hp] at h
      simp at h

/-- A key starting with a non-digit character never has its whole length as
its trailing digit count. -/
theorem trailing_lt_of_head_not_digit {a : Char} {rest : List Char}
    (ha : a.isDigit = false) :
    trailingDigitCount (a :: rest) ≠ (a :: rest).length := by
  intro h
  unfold trailingDigitCount at h
  rw [← List.length_reverse (a :: rest)] at h
  have hall := all_of_takeWhile_length h a (by simp)
  rw [ha] at hall
  cases hall

/-- Unfolding beginsWith against a two-character pattern. -/
theorem beginsWith_two {a b : Char} {l : List Char}
    (h : beginsWith l [a, b] = true) : ∃ rest, l = a :: b :: rest := by
  match l with
  | [] => simp [beginsWith] at h
  | [x] => simp [beginsWith] at h
  | x :: y :: rest =>
    simp only [beginsWith, Bool.and_eq_true, beq_iff_eq] at h
    exact ⟨rest, by rw [h.1, h.2.1]⟩

/-- The prefix index parser never raises IndexError on a key carrying the
L_ marker: such a key cannot consist solely of digits. -/
theorem parsePrefix_marker_no_indexError {s : String}
    (hL : beginsWith s.data PREFIX_KEY_VALUE.data = true) :
    (∃ r, parsePrefixKeyWithIndex s = .ok r) ∨
    (∃ m, parsePrefixKeyWithIndex s = .error (.valueError m)) := by
  have hdata : PREFIX_KEY_VALUE.data = [('L'), ('_')] := rfl
  rw [hdata] at hL
  obtain ⟨rest, hrest⟩ := beginsWith_two hL
  unfold parsePrefixKeyWithIndex
  have hne : trailingDigitCount s.data ≠ s.data.length := by
    rw [hrest]
    exact trailing_lt_of_head_not_digit (by decide)
  rw [if_neg hne]
  by_cases h0 : trailingDigitCount s.data = 0
  · right; exact ⟨_, by rw [if_pos h0]⟩
  · left; exact ⟨_, by rw [if_neg h0]⟩

/-- Every failure of the group index parser is a ValueError. -/
theorem parseGroup_error_valueError {key : String} {o c : Char} {e : PyErr}
    (h : parseGroupKeyWithIndex key o c = .error e) : ∃ m, e = .valueError m := by
  unfold parseGroupKeyWithIndex at h
  cases h1 : rindexChar o key.data with
  | none =>
    rw [h1] at h
    cases h2 : rindexChar c key.data <;> rw [h2] at h <;> cases h <;> exact ⟨_, rfl⟩
  | some oi =>
    rw [h1] at h
    cases h2 : rindexChar c key.data with
    | none => rw [h2] at h; cases h; exact ⟨_, rfl⟩
    | some ci =>
      rw [h2] at h
      dsimp only at h
      cases h3 : pyIntChars (sliceChars key.data (oi + 1) ci) <;> rw [h3] at h
      · cases h; exact ⟨_, rfl⟩
      · cases h

/-- The lenient key-path parse of a component list headed by a nonempty
string component always succeeds: detection succeeds on a nonempty
component, and the only failure the index parsers can produce on a detected
component is ValueError, which non-strict parsing swallows. -/
theorem parsePath_lenient_ok (initial : String) (rest : List PyKey)
    (h : initial.data ≠ []) :
    (parseHierarchicalKeyPath (.path (PyKey.s initial :: rest)) false).isOk = true := by
  unfold parseHierarchicalKeyPath
  dsimp only
  rw [detect_total initial h]
  by_cases hb : beginsWith initial.data PREFIX_KEY_VALUE.data = true
  · rcases parsePrefix_marker_no_indexError (s := initial) hb with ⟨r, hr⟩ | ⟨m, hm⟩
    · simp [hb, parseKeyWithIndex, hr, Except.isOk, Except.toBool]
    · simp [hb, parseKeyWithIndex, hm, Except.isOk, Except.toBool]
  · by_cases h1 : initial.data.getLast? = some (']')
    · cases hpg : parseGroupKeyWithIndex initial ('[') (']') with
      | error e =>
        obtain ⟨m, rfl⟩ := parseGroup_error_valueError hpg
        simp [hb, h1, parseKeyWithIndex, parseBracketKeyWithIndex, hpg,
          Except.isOk, Except.toBool]
      | ok r =>
        simp [hb, h1, parseKeyWithIndex, parseBracketKeyWithIndex, hpg,
          Except.isOk, Except.toBool]
    · by_cases h2 : initial.data.getLast? = some (')')
      · cases hpg : parseGroupKeyWithIndex initial ('(') (')') with
        | error e =>
          obtain ⟨m, rfl⟩ := parseGroup_error_valueError hpg
          simp [hb, h1, h2, parseKeyWithIndex, parseParenthesesKeyWithIndex, hpg,
            Except.isOk, Except.toBool]
        | ok r =>
          simp [hb, h1, h2, parseKeyWithIndex, parseParenthesesKeyWithIndex, hpg,
            Except.isOk, Except.toBool]
      · simp [hb, h1, h2, Except.isOk, Except.toBool]

/-- Parsing a raw key equals parsing the component list obtained from its
successfully normalized form. -/
theorem parseHKP_raw_normalized (key b : String)
    (hc : convertPrefixIntoBracketKey key = .ok b) (strict : Bool) :
    parseHierarchicalKeyPath (.raw key) strict =
      parseHierarchicalKeyPath
        (.path ((splitOnChar KEY_HIERARCHY_SEPARATOR b.data).map
          (fun cs => PyKey.s (String.mk cs)))) strict := by
  unfold parseHierarchicalKeyPath
  dsimp only
  rw [hc]

/-! ## Claim theorems -/

/-- C1: the round-trip property decode(encode(v, c), c, strict) == v fails
on the code. At the failing input v = {a: {d: [["5"]]}} under the bracket
convention, encoding yields the single pair (a.d[0][0], "5"), but decoding
that pair (its value delivered as a one-element raw-value sequence, as the
query-string tokenizer produces it) rebuilds the literal inner key "d[0]"
instead of the nested lists under "d": parse_hierarchical_key_path strips
only one trailing index group per segment. The third conjunct records that
the decoded value differs from v; both dicts are singletons at every level,
so the inequality is independent of any key-ordering convention. -/
theorem c1_round_trip_fails_on_nested_lists :
    getHierarchicalPairs 100 (.dict [(.s ("a"), .dict [(.s ("d"),
        .list [.list [.str ("5")]])])]) .bracket =
      .ok [(("a.d[0][0]"), .str ("5"))] ∧
    getHierarchicalDict 100 [(("a.d[0][0]"), .list [.str ("5")])] true =
      .ok (.dict [(.s ("a"), .dict [(.s ("d[0]"), .list [.str ("5")])])]) ∧
    (PyVal.dict [(.s ("a"), .dict [(.s ("d[0]"), .list [.str ("5")])])] ≠
      PyVal.dict [(.s ("a"), .dict [(.s ("d"), .list [.list [.str ("5")]])])]) :=
  ⟨rfl, rfl, by simp⟩

/-- C2: decoding the three flat bracket keys a.d[0][0][0..2] does not yield
{a: {d: [[[5, 6, 7]]]}} as the claim (and the test suite in
tests/suite.py, test_get_hierarchical_dict) states: because the key-path
parser strips a single trailing group per segment instead of repeating, the
decoder stores the values under the literal key "d[0][0]", producing
{a: {d[0][0]: [5, 6, 7]}}. Both dicts are singletons at every level, so the
final inequality is independent of key order. -/
theorem c2_multidim_decode_keeps_literal_key :
    getHierarchicalDict 100 [(("a.d[0][0][0]"), .int 5), (("a.d[0][0][1]"), .int 6),
        (("a.d[0][0][2]"), .int 7)] true =
      .ok (.dict [(.s ("a"), .dict [(.s ("d[0][0]"),
        .list [.int 5, .int 6, .int 7])])]) ∧
    (PyVal.dict [(.s ("a"), .dict [(.s ("d[0][0]"),
        .list [.int 5, .int 6, .int 7])])] ≠
      PyVal.dict [(.s ("a"), .dict [(.s ("d"),
        .list [.list [.list [.int 5, .int 6, .int 7]]])])]) :=
  ⟨rfl, by simp⟩

/-- C3: convert_prefix_into_bracket_key appends the bracket rendering of a
numeric token as a new component while keeping the preceding textual token,
instead of replacing it: L_FOO_0_BAR1 maps to FOO.FOO[0].BAR[1] (not
FOO[0].BAR[1] as the claim, the function doctest and
test_convert_prefix_into_bracket_key state), and FOO_0_0_0_BAR maps to
FOO.FOO[0].FOO[0][0].FOO[0][0][0].BAR (not FOO[0][0][0].BAR). -/
theorem c3_prefix_normalization_duplicates_tokens :
    convertPrefixIntoBracketKey ("L_FOO_0_BAR1") = .ok ("FOO.FOO[0].BAR[1]") ∧
    convertPrefixIntoBracketKey ("FOO_0_0_0_BAR") =
      .ok ("FOO.FOO[0].FOO[0][0].FOO[0][0][0].BAR") ∧
    (("FOO.FOO[0].BAR[1]") : String) ≠ ("FOO[0].BAR[1]") ∧
    (("FOO.FOO[0].FOO[0][0].FOO[0][0][0].BAR") : String) ≠ ("FOO[0][0][0].BAR") :=
  ⟨rfl, rfl, by decide, by decide⟩

/-- C4 counterexample: flattening the three-level map {a: {b: {c: "x"}}}
under the prefix convention does not fail with MaxDepthExceededError; the
flatten engine tracks no depth at all and succeeds, producing the ambiguous
pair (a_b_c, "x"). -/
theorem c4_counterexample_prefix_deep_flatten_succeeds :
    getHierarchicalPairs 100 (.dict [(.s ("a"), .dict [(.s ("b"),
        .dict [(.s ("c"), .str ("x"))])])]) .prefixConv =
      .ok [(("a_b_c"), .str ("x"))] := rfl

/-- C4 amended: flattening hierarchical values nested more than two levels
deep succeeds under every convention; _convert_into_list has no depth
parameter (its docstring mentions one that does not exist) and no
MaxDepthExceededError exists in the code. Shown for a three-level map and a
three-level list nest under all three conventions. -/
theorem c4_no_depth_limit_in_flatten_engine :
    getHierarchicalPairs 100 (.dict [(.s ("a"), .dict [(.s ("b"),
        .dict [(.s ("c"), .str ("x"))])])]) .prefixConv =
      .ok [(("a_b_c"), .str ("x"))] ∧
    getHierarchicalPairs 100 (.dict [(.s ("a"), .dict [(.s ("b"),
        .dict [(.s ("c"), .str ("x"))])])]) .bracket =
      .ok [(("a.b.c"), .str ("x"))] ∧
    getHierarchicalPairs 100 (.dict [(.s ("a"), .dict [(.s ("b"),
        .dict [(.s ("c"), .str ("x"))])])]) .parentheses =
      .ok [(("a.b.c"), .str ("x"))] ∧
    getHierarchicalPairs 100 (.dict [(.s ("a"),
        .list [.list [.list [.str ("x")]]])]) .prefixConv =
      .ok [(("a_0_0_0"), .str ("x"))] ∧
    getHierarchicalPairs 100 (.dict [(.s ("a"),
        .list [.list [.list [.str ("x")]]])]) .bracket =
      .ok [(("a[0][0][0]"), .str ("x"))] ∧
    getHierarchicalPairs 100 (.dict [(.s ("a"),
        .list [.list [.list [.str ("x")]]])]) .parentheses =
      .ok [(("a(0)(0)(0)"), .str ("x"))] :=
  ⟨rfl, rfl, rfl, rfl, rfl, rfl⟩

/-- C5 counterexample: the convention detector is not case-insensitive and
does not always succeed. The fragment l_foobar0 (lowercase marker) is
classified as having no convention, not as prefix, because str.startswith
against L_ is case sensitive and the last character 0 is neither a closing
bracket nor a closing parenthesis; and on the empty fragment the detector
raises IndexError from key[-1] instead of returning an outcome. -/
theorem c5_counterexample_detector_case_and_empty :
    detectKeyConvention ("l_foobar0") = .ok none ∧
    detectKeyConvention ("") = .error .indexError :=
  ⟨rfl, rfl⟩

/-- C5 amended: for every nonempty raw key fragment the detector applies
first-match-wins with a case-sensitive marker and never fails: prefix when
the fragment starts with L_ (exactly, lowercase l_ is not recognised), else
bracket when the last character is a closing bracket, else parentheses when
it is a closing parenthesis, else the none outcome; the empty fragment is
the sole failing input (IndexError). -/
theorem c5_detector_first_match_wins (key : String) (h : key ≠ ("")) :
    detectKeyConvention key =
      .ok (if beginsWith key.data PREFIX_KEY_VALUE.data then some Convention.prefixConv
           else if key.data.getLast? = some (']') then some Convention.bracket
           else if key.data.getLast? = some (')') then some Convention.parentheses
           else none) :=
  detect_total key (data_ne_nil_of_ne_empty h)

/-- C5 witness: the amended detector characterisation applied to the
concrete fragment foobar[0]. -/
theorem c5_detector_first_match_wins_witness :
    detectKeyConvention ("foobar[0]") =
      .ok (if beginsWith ("foobar[0]").data PREFIX_KEY_VALUE.data then
            some Convention.prefixConv
           else if ("foobar[0]").data.getLast? = some (']') then some Convention.bracket
           else if ("foobar[0]").data.getLast? = some (')') then some Convention.parentheses
           else none) :=
  c5_detector_first_match_wins ("foobar[0]") (by decide)

/-- C6 counterexample: under strict parsing the key foobar[ (opened but
unclosed index group) is not rejected by the key-path parser: the detector
classifies it as having no convention, since its last character is not a
closing bracket, so the key is returned as a literal string component with
no error. -/
theorem c6_counterexample_unclosed_group_accepted :
    parseHierarchicalKeyPath (.raw ("foobar[")) true = .ok (.s ("foobar["), []) := rfl

/-- C6 amended: under the bracket convention with strict key parsing,
parsing foobar[x] fails with the MalformedKeyError of the code (ValueError:
cannot retrieve numerical index); parsing foobar[ does not fail at the
key-path level, where the key is kept as a literal component, although the
bracket group parser parse_bracket_key_with_index itself does reject
foobar[ with ValueError for the missing closing identifier. -/
theorem c6_malformed_key_rejection :
    parseHierarchicalKeyPath (.raw ("foobar[x]")) true =
      .error (.valueError ("Cannot retrieve numerical index in key: foobar[x]")) ∧
    parseHierarchicalKeyPath (.raw ("foobar[")) true = .ok (.s ("foobar["), []) ∧
    parseBracketKeyWithIndex ("foobar[") =
      .error (.valueError
        ("Missing opening or closing sequence identifier for key: foobar[")) :=
  ⟨rfl, rfl, rfl⟩

/-- C7 counterexample: decoding with strict key parsing disabled can still
surface a key-path parse failure. The key 0_A begins with a numeric
underscore token, so prefix normalization reads converted[-1] on an empty
list and raises IndexError before the strict flag is ever consulted; the
whole decode of {0_A: ["x"]} with strict=false fails instead of storing the
value under the literal key. -/
theorem c7_counterexample_lenient_decode_fails :
    parseHierarchicalKeyPath (.raw ("0_A")) false = .error .indexError ∧
    getHierarchicalDict 100 [(("0_A"), .list [.str ("x")])] false =
      .error .indexError :=
  ⟨rfl, rfl⟩

/-- C7 amended: with strict key parsing disabled, ValueError failures from
index parsing are swallowed and the offending component is kept as a
literal StringKey (illustrated by foo[x], stored whole); the parse then
never fails provided prefix normalization succeeded and the first
dot-segment of the normalized key is nonempty. Failures of the
normalization itself (IndexError from a numeric token with no preceding
textual token) propagate regardless of the strict flag. -/
theorem c7_lenient_parse_swallows_value_errors :
    (∀ (key b : String) (seg : List Char),
        convertPrefixIntoBracketKey key = .ok b →
        (splitOnChar KEY_HIERARCHY_SEPARATOR b.data).head? = some seg →
        seg ≠ [] →
        (parseHierarchicalKeyPath (.raw key) false).isOk = true) ∧
    parseHierarchicalKeyPath (.raw ("foo[x]")) false = .ok (.s ("foo[x]"), []) := by
  constructor
  · intro key b seg hc hh hne
    rw [parseHKP_raw_normalized key b hc]
    obtain ⟨tl, htl⟩ : ∃ tl,
        splitOnChar KEY_HIERARCHY_SEPARATOR b.data = seg :: tl := by
      cases hsp : splitOnChar KEY_HIERARCHY_SEPARATOR b.data with
      | nil => rw [hsp] at hh; cases hh
      | cons a t => rw [hsp] at hh; cases hh; exact ⟨t, rfl⟩
    rw [htl]
    exact parsePath_lenient_ok (String.mk seg) _ hne
  · rfl

/-- C7 witness: the lenient no-failure statement applied to the concrete key
a[0], whose normalization is itself (no underscore) and whose first segment
is nonempty. -/
theorem c7_lenient_parse_swallows_value_errors_witness :
    (parseHierarchicalKeyPath (.raw ("a[0]")) false).isOk = true :=
  c7_lenient_parse_swallows_value_errors.1 ("a[0]") ("a[0]") (("a[0]").data)
    rfl rfl (by decide)

/-- C8 counterexample: a decode input in which every raw key maps to exactly
one raw value can still produce a List of length one. Decoding
{a[0]: ["x"]} yields {a: ["x"]}: the index component 0 creates the list
structurally, and the singleton raw-value sequence collapse does not remove
it. -/
theorem c8_counterexample_singleton_list_from_index :
    getHierarchicalDict 100 [(("a[0]"), .list [.str ("x")])] true =
      .ok (.dict [(.s ("a"), .list [.str ("x")])]) := rfl

/-- C8 amended: what the single-element collapse guarantees is that a
one-element raw-value sequence is never stored as a leaf List: whenever the
key path is exhausted the unflatten step returns the sole element of a
singleton sequence, for every destination, element and strictness; Lists of
length one can still appear in the result through explicit index components
in keys. -/
theorem c8_singleton_value_collapses_at_leaf (fuel : Nat) (destination : PyVal)
    (x : PyVal) (strictKeyParsing : Bool) :
    convertIntoHierarchicalDict fuel destination (.path []) (.list [x])
      strictKeyParsing = .ok x := by
  rw [convertIntoHierarchicalDict.eq_def]
  rfl

/-- C9: flattening {a: {b: [1, 2], c: [3, 4], d: [[5, 6, 7]]},
astring: "Hello"} under the bracket convention yields exactly the eight
claimed pairs. With the modelled iteration order the output order matches
the claimed order, so the order-independent set comparison holds by
equality. -/
theorem c9_bracket_pair_generation :
    getHierarchicalPairs 100 (.dict [
      (.s ("a"), .dict [
        (.s ("b"), .list [.int 1, .int 2]),
        (.s ("c"), .list [.int 3, .int 4]),
        (.s ("d"), .list [.list [.int 5, .int 6, .int 7]])]),
      (.s ("astring"), .str ("Hello"))]) .bracket =
    .ok [(("a.b[0]"), .int 1), (("a.b[1]"), .int 2),
         (("a.c[0]"), .int 3), (("a.c[1]"), .int 4),
         (("a.d[0][0]"), .int 5), (("a.d[0][1]"), .int 6), (("a.d[0][2]"), .int 7),
         (("astring"), .str ("Hello"))] := rfl

/-- C10: the public facade dumps always raises TypeError, for every object
and convention: its call to util.get_hierarchical_pairs passes the keyword
argument key_filter, which is not among that function signature's
parameters (source, convention), so the Python call protocol rejects the
call before the callee body or urlencode can run. -/
theorem c10_dumps_always_raises_type_error (fuel : Nat) (obj : PyVal)
    (convention : Convention) :
    dumps fuel obj convention =
      .error (.typeError
        ("get_hierarchical_pairs() got an unexpected keyword argument key_filter")) :=
  rfl
